import Mathlib

/-!
Shallow embedding of `src/main.rs` of symbol-master-service: a batch job
that fetches the provider's symbol universe, reconciles it with the
persisted active set, enriches new symbols with profiles (retry on 429,
fallback on failure), and persists the result.

Modelling conventions:
* `f64` values (JSON numbers such as `marketCapitalization`) are modelled
  as exact rationals `ℚ`; `as i64` truncation toward zero is `ratTrunc`.
* Timestamps (`DateTime<Utc>`) are modelled as `Nat`.
* The database table `symbol_master` is a `List SymbolMaster` (row order
  is the list order); `job_status` is a `List JobRow`.
* Outbound HTTP responses for one symbol are an infinite stream
  `Nat → ApiResponse` indexed by attempt number.
* Metric counters are explicit fields; gauges and log lines (pure
  observability with no control-flow effect) are not modelled.
-/

/-- Rust `struct Symbol` (main.rs lines 15-20): one entry of the fetched universe. -/
structure RawSymbol where
  symbol : String
  mic : Option String
  currency : Option String
deriving DecidableEq

/-- Rust `struct Profile` (main.rs lines 22-31): enrichment payload.
`market_cap` is the provider's `marketCapitalization` (millions, `f64`
modelled as `ℚ`); `ipo` is the raw date string. -/
structure Profile where
  name : Option String
  country : Option String
  ipo : Option String
  market_cap : Option ℚ
  industry : Option String
deriving DecidableEq

/-- A calendar date, standing in for `chrono::NaiveDate`. -/
structure NaiveDate where
  year : Nat
  month : Nat
  day : Nat
deriving DecidableEq

/-- Model of `NaiveDate::parse_from_str(s, "%Y-%m-%d").ok()` (main.rs line 160):
numeric `year-month-day` with basic range validity; parse failure is `none`.
(Exact chrono calendar pedantry — leap years, zero padding — is abstracted;
no claim depends on a particular date string.) -/
def parseNaiveDate (s : String) : Option NaiveDate :=
  match (s.splitOn "-").map String.toNat? with
  | [some y, some m, some d] =>
      if 1 ≤ m ∧ m ≤ 12 ∧ 1 ≤ d ∧ d ≤ 31 then some ⟨y, m, d⟩ else none
  | _ => none

/-- Rust `struct SymbolMaster` (main.rs lines 33-47): one persisted row. -/
structure SymbolMaster where
  symbol : String
  exchange : Option String
  name : Option String
  sector : Option String
  industry : Option String
  currency : Option String
  country : Option String
  ipo_date : Option NaiveDate
  market_cap : Option ℤ
  is_active : Bool
  data_source : String
  last_updated : Nat
deriving DecidableEq

/-- Truncation toward zero of a rational, as Rust's `as i64` cast of an
`f64` (main.rs line 161); `Int.tdiv` is division truncating toward zero. -/
def ratTrunc (q : ℚ) : ℤ :=
  Int.tdiv q.num (q.den : ℤ)

/-- The all-null fallback `Profile` built on every enrichment failure path
(main.rs lines 118-124, 136-142, 149-155). -/
def nullProfile : Profile :=
  { name := none, country := none, ipo := none, market_cap := none, industry := none }

/-! ## Set reconciler (main.rs lines 92-95) -/

/-- The `symbol_set` of main.rs line 92: the identifiers of the fetched universe (line 92). -/
def symbolSet (symbols : List RawSymbol) : Finset String :=
  (symbols.map (fun s => s.symbol)).toFinset

/-- The `new_symbols` of main.rs line 94: universe entries whose identifier is not active (line 94). -/
def newSymbols (symbols : List RawSymbol) (existing : Finset String) : List RawSymbol :=
  symbols.filter (fun s => decide (s.symbol ∉ existing))

/-- The `delisted_symbols` of main.rs line 95: active identifiers absent from the universe (line 95). -/
def delistedSymbols (symbols : List RawSymbol) (existing : Finset String) : Finset String :=
  existing \ symbolSet symbols

/-! ## Profile enricher (main.rs lines 101-177) -/

/-- Outcome of one enrichment HTTP attempt, as the code distinguishes them:
transport error (`Err(e)`), HTTP 429, or a non-429 response whose body
decodes to `some p` or fails to decode (`none`). -/
inductive ApiResponse where
  | transportErr : ApiResponse
  | rateLimited : ApiResponse
  | okResponse : Option Profile → ApiResponse
deriving DecidableEq

/-- Observable outcome of the enrichment loop for one symbol: the profile
finally used, the error/API counters it incremented, the list of delays
slept (seconds each), and how many HTTP requests it issued. -/
structure EnrichResult where
  profile : Profile
  rateLimitErrs : Nat
  apiFetchErrs : Nat
  apiParseErrs : Nat
  apiCalls : Nat
  sleeps : List Nat
  requests : Nat
deriving DecidableEq

/-- The retry loop body (main.rs lines 105-158). `attempt` is the index of
the request about to be issued, `retries` the remaining retry budget
(initialised to 3 at line 103), `rl`/`sl` the rate-limit increments and
sleeps accumulated so far. On 429 the counter is incremented first; only
then is `retries == 0` checked (line 116), otherwise the loop sleeps 2
seconds, decrements, and retries (lines 126-128). A non-429 response
increments the API-call counter (line 130) before decoding. -/
def enrichLoop (resp : Nat → ApiResponse) (attempt : Nat) (retries : Nat)
    (rl : Nat) (sl : List Nat) : EnrichResult :=
  match resp attempt with
  | .transportErr =>
      { profile := nullProfile, rateLimitErrs := rl, apiFetchErrs := 1,
        apiParseErrs := 0, apiCalls := 0, sleeps := sl, requests := attempt + 1 }
  | .rateLimited =>
      match retries with
      | 0 =>
          { profile := nullProfile, rateLimitErrs := rl + 1, apiFetchErrs := 0,
            apiParseErrs := 0, apiCalls := 0, sleeps := sl, requests := attempt + 1 }
      | r + 1 => enrichLoop resp (attempt + 1) r (rl + 1) (sl ++ [2])
  | .okResponse d =>
      match d with
      | some p =>
          { profile := p, rateLimitErrs := rl, apiFetchErrs := 0,
            apiParseErrs := 0, apiCalls := 1, sleeps := sl, requests := attempt + 1 }
      | none =>
          { profile := nullProfile, rateLimitErrs := rl, apiFetchErrs := 0,
            apiParseErrs := 1, apiCalls := 1, sleeps := sl, requests := attempt + 1 }

/-- One symbol's enrichment: the loop entered with `retries = 3` (line 103). -/
def enrich (resp : Nat → ApiResponse) : EnrichResult :=
  enrichLoop resp 0 3 0 []

/-- Building the `SymbolMaster` record for a new symbol (main.rs lines
160-175): merge of `RawSymbol` fields and the obtained profile;
`market_cap` is millions × 1,000,000 truncated toward zero; sector and
industry both come from the provider's industry field. -/
def buildRecord (sym : RawSymbol) (profile : Profile) (now : Nat) : SymbolMaster :=
  { symbol := sym.symbol
    exchange := sym.mic
    name := profile.name
    sector := profile.industry
    industry := profile.industry
    currency := sym.currency
    country := profile.country
    ipo_date := profile.ipo.bind parseNaiveDate
    market_cap := profile.market_cap.map (fun cap => ratTrunc (cap * 1000000))
    is_active := true
    data_source := "Finnhub"
    last_updated := now }

/-! ## Persistence coordinator (main.rs lines 179-250) -/

/-- One `INSERT ... ON CONFLICT (symbol) DO UPDATE SET` statement
(main.rs lines 182-214): if a row with the record's symbol exists, every
mutable column is overwritten — since the key is equal, the whole row
becomes the new record; otherwise the record is appended. -/
def upsertOne (table : List SymbolMaster) (rec : SymbolMaster) : List SymbolMaster :=
  if table.any (fun row => row.symbol == rec.symbol) then
    table.map (fun row => if row.symbol = rec.symbol then rec else row)
  else
    table ++ [rec]

/-- The upsert transaction over all new records (main.rs lines 180-216). -/
def upsertAll (table : List SymbolMaster) (recs : List SymbolMaster) : List SymbolMaster :=
  recs.foldl upsertOne table

/-- The delisting update (main.rs lines 219-229): guarded by
`!delisted_symbols.is_empty()`, a single set-based `UPDATE` that sets
`is_active = FALSE, last_updated = now` on every row whose symbol is in
the delisted set. -/
def applyDelistings (table : List SymbolMaster) (delisted : Finset String) (now : Nat) :
    List SymbolMaster :=
  if delisted = ∅ then table
  else table.map (fun row =>
    if row.symbol ∈ delisted then { row with is_active := false, last_updated := now }
    else row)

/-- Query `SELECT symbol FROM symbol_master WHERE is_active = TRUE` (main.rs
line 84), collected into a set (line 93). -/
def activeSymbols (table : List SymbolMaster) : Finset String :=
  ((table.filter (fun r => r.is_active)).map (fun r => r.symbol)).toFinset

/-- Query `SELECT COUNT(*) FROM symbol_master WHERE is_active = TRUE`
(main.rs line 232). -/
def countActive (table : List SymbolMaster) : Nat :=
  (table.filter (fun r => r.is_active)).length

/-- The validation threshold `(symbols.len() as f64 * 0.9) as i64`
(main.rs line 237). For every universe size in the representable range
the `f64` computation equals `⌊9·n/10⌋`, which is how it is modelled. -/
def validationThreshold (universeSize : Nat) : Nat :=
  9 * universeSize / 10

/-- One row of the `job_status` audit table (main.rs lines 244-250). -/
structure JobRow where
  job_name : String
  last_run : Nat
  status : String
  details : String
deriving DecidableEq

/-- The two fatal-error classes the claims distinguish: universe
fetch/decode failure (main.rs lines 75-80) and upsert-transaction failure
(lines 180-216). -/
inductive FatalError where
  | universeFetch : FatalError
  | transaction : FatalError
deriving DecidableEq

/-- The metric counters the job increments (`counter!` calls). -/
structure Counters where
  rate_limit : Nat
  api_fetch : Nat
  api_parse : Nat
  api_calls : Nat
  data_validation : Nat
  completed : Nat
deriving DecidableEq

def Counters.zero : Counters :=
  { rate_limit := 0, api_fetch := 0, api_parse := 0, api_calls := 0,
    data_validation := 0, completed := 0 }

/-- The counter increments one symbol's enrichment produced. -/
def EnrichResult.counters (r : EnrichResult) : Counters :=
  { rate_limit := r.rateLimitErrs, api_fetch := r.apiFetchErrs,
    api_parse := r.apiParseErrs, api_calls := r.apiCalls,
    data_validation := 0, completed := 0 }

def Counters.add (a b : Counters) : Counters :=
  { rate_limit := a.rate_limit + b.rate_limit, api_fetch := a.api_fetch + b.api_fetch,
    api_parse := a.api_parse + b.api_parse, api_calls := a.api_calls + b.api_calls,
    data_validation := a.data_validation + b.data_validation,
    completed := a.completed + b.completed }

/-- Environment of one run: the universe fetch outcome (`Except` for the
fatal fetch/decode failure), the initial database state, the per-symbol
response streams, whether the upsert transaction commits, and the clock. -/
structure RunEnv where
  universeResult : Except Unit (List RawSymbol)
  table0 : List SymbolMaster
  jobRows0 : List JobRow
  responses : String → Nat → ApiResponse
  txOk : Bool
  now : Nat

/-- Database state (plus counters) when the run ends. -/
structure RunState where
  table : List SymbolMaster
  jobRows : List JobRow
  counters : Counters
deriving DecidableEq

/-- Outcome of one run: fatal error (process exits non-zero) with the
state as left behind, or normal completion (exit zero). -/
inductive RunOutcome where
  | fatal : FatalError → RunState → RunOutcome
  | ok : RunState → RunOutcome
deriving DecidableEq

def RunOutcome.state : RunOutcome → RunState
  | .fatal _ s => s
  | .ok s => s

def RunOutcome.isOk : RunOutcome → Bool
  | .fatal _ _ => false
  | .ok _ => true

/-- The records built for the new symbols of a run (main.rs lines
100-177): each new symbol is enriched from its response stream and folded
into a `SymbolMaster` record. -/
def runRecords (env : RunEnv) (symbols : List RawSymbol) : List SymbolMaster :=
  (newSymbols symbols (activeSymbols env.table0)).map
    (fun s => buildRecord s (enrich (env.responses s.symbol)).profile env.now)

/-- Counter increments of the whole enrichment phase of a run. -/
def runEnrichCounters (env : RunEnv) (symbols : List RawSymbol) : Counters :=
  ((newSymbols symbols (activeSymbols env.table0)).map
    (fun s => (enrich (env.responses s.symbol)).counters)).foldl Counters.add Counters.zero

/-- The `job_status` row written at the end of a successful run (main.rs
lines 244-250): constant name, status `"success"` unconditionally, details
summarizing the addition and delisting counts. -/
def successRow (now : Nat) (added delisted : Nat) : JobRow :=
  { job_name := "symbol_sync", last_run := now, status := "success",
    details := s!"Added {added} new, delisted {delisted}" }

/-- The whole run (main.rs `main`): fetch universe (fatal on failure),
reconcile against the persisted active set, enrich each new symbol, upsert
in one transaction (fatal on failure, nothing written), apply delistings,
validate the active count (advisory: counter only), and append the
unconditional success row. -/
def runJob (env : RunEnv) : RunOutcome :=
  match env.universeResult with
  | .error _ =>
      .fatal .universeFetch ⟨env.table0, env.jobRows0, Counters.zero⟩
  | .ok symbols =>
      let existing := activeSymbols env.table0
      let delisted := delistedSymbols symbols existing
      let records := runRecords env symbols
      let enrichTotals := runEnrichCounters env symbols
      if env.txOk then
        let table2 := applyDelistings (upsertAll env.table0 records) delisted env.now
        let failed := countActive table2 < validationThreshold symbols.length
        let c1 :=
          if failed then
            { enrichTotals with data_validation := enrichTotals.data_validation + 1 }
          else enrichTotals
        let c2 := { c1 with completed := c1.completed + 1 }
        .ok ⟨table2, env.jobRows0 ++ [successRow env.now records.length delisted.card], c2⟩
      else
        .fatal .transaction ⟨env.table0, env.jobRows0, enrichTotals⟩

/-! ## Concrete scenario inputs used by counterexamples and witnesses -/

/-- A universe entry with no optional fields. -/
def raw (s : String) : RawSymbol :=
  { symbol := s, mic := none, currency := none }

/-- A universe entry with market identifier and currency populated. -/
def sampleRaw : RawSymbol :=
  { symbol := "AAPL", mic := some "XNAS", currency := some "USD" }

/-- A decoded profile reporting a market capitalization of 3.7 million. -/
def sampleCapProfile : Profile :=
  { name := some "Apple Inc", country := some "US", ipo := some "1980-12-12",
    market_cap := some (37 / 10), industry := some "Technology" }

/-- A decoded profile used to exhibit recovery after three 429s. -/
def recoveredProfile : Profile :=
  { name := some "Recovered Corp", country := some "US", ipo := none,
    market_cap := none, industry := some "Retail" }

/-- A response stream that returns 429 on the first three attempts and a
successfully decoding response on every later attempt. -/
def threeRateLimitStream : Nat → ApiResponse :=
  fun n => if n < 3 then ApiResponse.rateLimited else ApiResponse.okResponse (some recoveredProfile)

/-- A response stream whose responses always arrive but never decode. -/
def parseFailStream : Nat → ApiResponse :=
  fun _ => ApiResponse.okResponse none

/-- Environment for the C6 witness: two fresh symbols, one hitting a
transport error, the other an undecodable body. -/
def fallbackEnv : RunEnv :=
  { universeResult := Except.ok [raw "AAA", raw "BBB"]
    table0 := []
    jobRows0 := []
    responses := fun s _ =>
      if s = "AAA" then ApiResponse.transportErr else ApiResponse.okResponse none
    txOk := true
    now := 7 }

/-- The universe of the C3 counterexample: five entries, one identifier
duplicated, so only four rows exist after the run. -/
def dupUniverse : List RawSymbol :=
  [raw "A", raw "B", raw "C", raw "D", raw "D"]

/-- Environment for the C3 counterexample: empty table, five-entry
universe, every enrichment response undecodable. -/
def dupEnv : RunEnv :=
  { universeResult := Except.ok dupUniverse
    table0 := []
    jobRows0 := []
    responses := fun _ _ => ApiResponse.okResponse none
    txOk := true
    now := 0 }

/-- Environment whose universe fetch fails fatally. -/
def fetchFailEnv : RunEnv :=
  { universeResult := Except.error ()
    table0 := []
    jobRows0 := []
    responses := fun _ _ => ApiResponse.okResponse none
    txOk := true
    now := 3 }

/-- Lookup of the row with the given primary key, if any (the shape of the
upsert conflict target and of a point `SELECT` on `symbol_master`). -/
def findRow (table : List SymbolMaster) (s : String) : Option SymbolMaster :=
  table.find? (fun row => row.symbol == s)

/-- Profile returned when the relisted symbol of the C10 witness is
re-enriched. -/
def relistProfile : Profile :=
  { name := some "GameStop", country := some "US", ipo := none,
    market_cap := none, industry := some "Retail" }

/-- An active persisted row. -/
def koRow : SymbolMaster :=
  { symbol := "KO", exchange := some "XNYS", name := some "Coca-Cola", sector := none,
    industry := none, currency := some "USD", country := some "US", ipo_date := none,
    market_cap := none, is_active := true, data_source := "Finnhub", last_updated := 1 }

/-- A persisted row marked inactive in an earlier run. -/
def gmeRow : SymbolMaster :=
  { symbol := "GME", exchange := some "XNYS", name := some "Old Name", sector := none,
    industry := none, currency := some "USD", country := some "US", ipo_date := none,
    market_cap := none, is_active := false, data_source := "Finnhub", last_updated := 1 }

def relistTable : List SymbolMaster := [koRow, gmeRow]

def relistFetched : List RawSymbol := [raw "KO", raw "GME"]

def relistResp : Nat → ApiResponse := fun _ => ApiResponse.okResponse (some relistProfile)

/-! ## Helper lemmas -/

/-- Enrichment results carry no `data_validation` increment, so folding
them leaves that counter at its initial value. -/
theorem foldl_counters_data_validation (l : List Counters) (acc : Counters)
    (h : ∀ c ∈ l, c.data_validation = 0) :
    (l.foldl Counters.add acc).data_validation = acc.data_validation := by
  induction l generalizing acc with
  | nil => rfl
  | cons c l ih =>
      have hc := h c (List.mem_cons_self c l)
      have hl : ∀ x ∈ l, x.data_validation = 0 := fun x hx => h x (List.mem_cons_of_mem c hx)
      simp only [List.foldl_cons, ih _ hl, Counters.add, hc, Nat.add_zero]

/-- The API-call counter of the loop equals 1 exactly when the response
that ended the loop was a non-429 HTTP response, decodable or not. -/
theorem enrichLoop_apiCalls_final (resp : Nat → ApiResponse) :
    ∀ retries attempt rl sl,
      (enrichLoop resp attempt retries rl sl).apiCalls
        = match resp ((enrichLoop resp attempt retries rl sl).requests - 1) with
          | ApiResponse.okResponse _ => 1
          | _ => 0 := by
  intro retries
  induction retries with
  | zero =>
      intro attempt rl sl
      cases hr : resp attempt
      case transportErr => simp [enrichLoop, hr]
      case rateLimited => simp [enrichLoop, hr]
      case okResponse d => cases d <;> simp [enrichLoop, hr]
  | succ r ih =>
      intro attempt rl sl
      cases hr : resp attempt
      case transportErr => simp [enrichLoop, hr]
      case rateLimited => simpa [enrichLoop, hr] using ih (attempt + 1) (rl + 1) (sl ++ [2])
      case okResponse d => cases d <;> simp [enrichLoop, hr]

/-- Replacing the row that shares the upserted record's key puts exactly
that record where the old row was. -/
theorem findRow_map_replace (table : List SymbolMaster) (nr : SymbolMaster)
    (hmem : ∃ r ∈ table, r.symbol = nr.symbol) :
    findRow (table.map (fun row => if row.symbol = nr.symbol then nr else row)) nr.symbol
      = some nr := by
  induction table with
  | nil =>
      obtain ⟨r, hr, _⟩ := hmem
      cases hr
  | cons a l ih =>
      by_cases ha : a.symbol = nr.symbol
      · simp [findRow, ha]
      · obtain ⟨r, hr, hrs⟩ := hmem
        rcases List.mem_cons.mp hr with rfl | hrl
        · exact absurd hrs ha
        · have hrec := ih ⟨r, hrl, hrs⟩
          simp only [findRow, List.map_cons, if_neg ha] at hrec ⊢
          rw [List.find?_cons_of_neg _ (by simp [ha])]
          exact hrec

/-! ## C1: reconciler set semantics -/

/-- C1: for every fetched universe and persisted active set, `new_symbols`
is exactly the universe entries whose identifier is not active,
`delisted_symbols` is exactly the active identifiers not in the universe,
and the two identifier sets are disjoint. -/
theorem reconciler_set_semantics (symbols : List RawSymbol) (existing : Finset String) :
    (∀ s : RawSymbol, s ∈ newSymbols symbols existing ↔ s ∈ symbols ∧ s.symbol ∉ existing) ∧
    (∀ x : String,
      x ∈ delistedSymbols symbols existing ↔ x ∈ existing ∧ x ∉ symbolSet symbols) ∧
    Disjoint ((newSymbols symbols existing).map (fun s => s.symbol)).toFinset
      (delistedSymbols symbols existing) := by
  refine ⟨?_, ?_, ?_⟩
  · intro s
    simp [newSymbols, List.mem_filter]
  · intro x
    simp [delistedSymbols, Finset.mem_sdiff]
  · rw [Finset.disjoint_left]
    intro a ha hd
    simp only [List.mem_toFinset, List.mem_map, newSymbols, List.mem_filter,
      decide_eq_true_eq] at ha
    simp only [delistedSymbols, Finset.mem_sdiff] at hd
    obtain ⟨s, ⟨_, hns⟩, rfl⟩ := ha
    exact hns hd.1

/-! ## C2: retry exhaustion on rate limiting -/

/-- Counterexample to C2 as stated: after exactly 3 consecutive 429
responses the enricher does not fall back — it issues a fourth request and
uses its decoded profile. -/
theorem retry_exhaustion_counterexample :
    (enrich threeRateLimitStream).profile = recoveredProfile ∧
    recoveredProfile ≠ nullProfile ∧
    (enrich threeRateLimitStream).requests = 4 ∧
    (enrich threeRateLimitStream).rateLimitErrs = 3 := by
  decide

/-- C2 (amended): when the first four responses are all 429, the enricher
performs exactly three 2-second delay-and-retry cycles, increments the
rate-limit counter once per 429 (four times), stops after the fourth
request with the all-null fallback profile, and the record built from it
is still active. -/
theorem retry_exhaustion (resp : Nat → ApiResponse) (sym : RawSymbol) (t : Nat)
    (h : ∀ n, n < 4 → resp n = ApiResponse.rateLimited) :
    (enrich resp).profile = nullProfile ∧
    (enrich resp).sleeps = [2, 2, 2] ∧
    (enrich resp).rateLimitErrs = 4 ∧
    (enrich resp).requests = 4 ∧
    (buildRecord sym (enrich resp).profile t).is_active = true := by
  have h0 := h 0 (by norm_num)
  have h1 := h 1 (by norm_num)
  have h2 := h 2 (by norm_num)
  have h3 := h 3 (by norm_num)
  refine ⟨?_, ?_, ?_, ?_, ?_⟩ <;>
    simp [enrich, enrichLoop, h0, h1, h2, h3, buildRecord]

/-- Witness for C2 (amended) on the constant-429 stream. -/
theorem retry_exhaustion_witness :
    (enrich (fun _ => ApiResponse.rateLimited)).profile = nullProfile ∧
    (enrich (fun _ => ApiResponse.rateLimited)).sleeps = [2, 2, 2] ∧
    (enrich (fun _ => ApiResponse.rateLimited)).rateLimitErrs = 4 ∧
    (enrich (fun _ => ApiResponse.rateLimited)).requests = 4 ∧
    (buildRecord sampleRaw (enrich (fun _ => ApiResponse.rateLimited)).profile 0).is_active
      = true :=
  retry_exhaustion (fun _ => ApiResponse.rateLimited) sampleRaw 0 (fun _ _ => rfl)

/-! ## C3: validation is advisory and uses a truncated threshold -/

/-- Counterexample to C3 as stated: after this run the active count (4)
is below 90% of the universe size (5 × 0.9 = 4.5), yet the
`data_validation` counter is not incremented, because the code compares
against the truncated threshold `(5 as f64 * 0.9) as i64 = 4`. -/
theorem validation_threshold_counterexample :
    (runJob dupEnv).isOk = true ∧
    countActive (runJob dupEnv).state.table = 4 ∧
    dupUniverse.length = 5 ∧
    10 * countActive (runJob dupEnv).state.table < 9 * dupUniverse.length ∧
    (runJob dupEnv).state.counters.data_validation = 0 := by
  decide

/-- C3 (amended): on a run whose fetch and transaction succeed, the
`data_validation` counter is incremented exactly once when the post-run
active count is strictly below the truncated threshold
`⌊0.9 × universe size⌋`, and not otherwise; the check alters no table row
(the final table is exactly the upsert-then-delist result) and the
success row is still written. -/
theorem validation_advisory (env : RunEnv) (symbols : List RawSymbol)
    (hu : env.universeResult = Except.ok symbols) (htx : env.txOk = true) :
    ∃ s : RunState, runJob env = RunOutcome.ok s ∧
      s.table = applyDelistings (upsertAll env.table0 (runRecords env symbols))
        (delistedSymbols symbols (activeSymbols env.table0)) env.now ∧
      s.counters.data_validation
        = (if countActive s.table < validationThreshold symbols.length then 1 else 0) ∧
      s.jobRows = env.jobRows0
        ++ [successRow env.now (runRecords env symbols).length
              (delistedSymbols symbols (activeSymbols env.table0)).card] := by
  have hz : (runEnrichCounters env symbols).data_validation = 0 := by
    unfold runEnrichCounters
    refine foldl_counters_data_validation _ _ ?_
    intro c hc
    simp only [List.mem_map] at hc
    obtain ⟨s, _, rfl⟩ := hc
    rfl
  have hrun : runJob env = RunOutcome.ok ((runJob env).state) := by
    simp only [runJob, hu, htx, if_true, RunOutcome.state]
  refine ⟨(runJob env).state, hrun, ?_, ?_, ?_⟩
  · simp only [runJob, hu, htx, if_true, RunOutcome.state]
  · by_cases hv :
        countActive (applyDelistings (upsertAll env.table0 (runRecords env symbols))
            (delistedSymbols symbols (activeSymbols env.table0)) env.now)
          < validationThreshold symbols.length
    · simp only [runJob, hu, htx, if_true, RunOutcome.state] at hv ⊢
      simp [hv, hz]
    · simp only [runJob, hu, htx, if_true, RunOutcome.state] at hv ⊢
      simp [hv, hz]
  · simp only [runJob, hu, htx, if_true, RunOutcome.state]

/-- Witness for C3 (amended) on the counterexample environment. -/
theorem validation_advisory_witness :
    ∃ s : RunState, runJob dupEnv = RunOutcome.ok s ∧
      s.table = applyDelistings (upsertAll dupEnv.table0 (runRecords dupEnv dupUniverse))
        (delistedSymbols dupUniverse (activeSymbols dupEnv.table0)) dupEnv.now ∧
      s.counters.data_validation
        = (if countActive s.table < validationThreshold dupUniverse.length then 1 else 0) ∧
      s.jobRows = dupEnv.jobRows0
        ++ [successRow dupEnv.now (runRecords dupEnv dupUniverse).length
              (delistedSymbols dupUniverse (activeSymbols dupEnv.table0)).card] :=
  validation_advisory dupEnv dupUniverse rfl rfl

/-! ## C4: unconditional success row, none on fatal error -/

/-- C4: every run that reaches the final persistence step appends exactly
one `job_status` row whose status is `"success"`, whatever the enrichment
and validation outcomes; a fatal error (universe fetch/decode failure or
transaction failure) leaves the audit log untouched. -/
theorem job_outcome_row (env : RunEnv) :
    (∀ s : RunState, runJob env = RunOutcome.ok s →
      ∃ row : JobRow, s.jobRows = env.jobRows0 ++ [row] ∧
        row.status = "success" ∧ row.job_name = "symbol_sync") ∧
    (∀ (e : FatalError) (s : RunState), runJob env = RunOutcome.fatal e s →
      s.jobRows = env.jobRows0) := by
  constructor
  · intro s hs
    cases hu : env.universeResult with
    | error u => simp [runJob, hu] at hs
    | ok symbols =>
        cases htx : env.txOk with
        | false => simp [runJob, hu, htx] at hs
        | true =>
            simp only [runJob, hu, htx, if_true] at hs
            cases hs
            exact ⟨successRow env.now (runRecords env symbols).length
              (delistedSymbols symbols (activeSymbols env.table0)).card, rfl, rfl, rfl⟩
  · intro e s hs
    cases hu : env.universeResult with
    | error u =>
        simp only [runJob, hu] at hs
        cases hs
        rfl
    | ok symbols =>
        cases htx : env.txOk with
        | false =>
            simp only [runJob, hu, htx, Bool.false_eq_true, if_false] at hs
            cases hs
            rfl
        | true => simp [runJob, hu, htx] at hs

/-- Witness for C4: a completed run appends one success row; a run whose
universe fetch fails writes no job row. -/
theorem job_outcome_row_witness :
    (∃ row : JobRow, (runJob dupEnv).state.jobRows = dupEnv.jobRows0 ++ [row] ∧
      row.status = "success" ∧ row.job_name = "symbol_sync") ∧
    (runJob fetchFailEnv).state.jobRows = fetchFailEnv.jobRows0 :=
  ⟨(job_outcome_row dupEnv).1 ((runJob dupEnv).state) rfl,
    (job_outcome_row fetchFailEnv).2 FatalError.universeFetch ((runJob fetchFailEnv).state) rfl⟩

/-! ## C5: market_cap conversion -/

/-- C5: the stored market_cap is the provider's millions figure times
1,000,000 truncated toward zero, and a null figure is stored as null. -/
theorem market_cap_conversion (sym : RawSymbol) (p : Profile) (t : Nat) :
    (buildRecord sym p t).market_cap = p.market_cap.map (fun c => ratTrunc (c * 1000000)) ∧
    (p.market_cap = none → (buildRecord sym p t).market_cap = none) ∧
    (∀ c : ℚ, p.market_cap = some c →
      (buildRecord sym p t).market_cap = some (ratTrunc (c * 1000000))) := by
  refine ⟨rfl, ?_, ?_⟩
  · intro h
    simp [buildRecord, h]
  · intro c h
    simp [buildRecord, h]

/-- Witness for C5 at a concrete profile: 3.7 reported millions is stored
as 3,700,000. -/
theorem market_cap_conversion_witness :
    sampleCapProfile.market_cap = some ((37 : ℚ) / 10) ∧
    (buildRecord sampleRaw sampleCapProfile 5).market_cap
      = some (ratTrunc ((37 : ℚ) / 10 * 1000000)) ∧
    ratTrunc ((37 : ℚ) / 10 * 1000000) = 3700000 :=
  ⟨rfl, (market_cap_conversion sampleRaw sampleCapProfile 5).2.2 _ rfl,
    by norm_num [ratTrunc]⟩

/-! ## C6: non-retryable failures fall back immediately -/

/-- C6: a transport failure falls back to the null profile immediately
(one request, no sleep) incrementing `api_fetch`; an undecodable response
falls back immediately incrementing `api_parse`; and whatever the
response streams do, a run whose universe fetch and transaction succeed
still completes instead of aborting. -/
theorem nonretryable_fallback (resp1 resp2 : Nat → ApiResponse) (env : RunEnv)
    (symbols : List RawSymbol)
    (h1 : resp1 0 = ApiResponse.transportErr)
    (h2 : resp2 0 = ApiResponse.okResponse none)
    (hu : env.universeResult = Except.ok symbols)
    (htx : env.txOk = true) :
    enrich resp1
      = { profile := nullProfile, rateLimitErrs := 0, apiFetchErrs := 1,
          apiParseErrs := 0, apiCalls := 0, sleeps := [], requests := 1 } ∧
    enrich resp2
      = { profile := nullProfile, rateLimitErrs := 0, apiFetchErrs := 0,
          apiParseErrs := 1, apiCalls := 1, sleeps := [], requests := 1 } ∧
    ∃ s : RunState, runJob env = RunOutcome.ok s := by
  refine ⟨?_, ?_, ?_⟩
  · simp [enrich, enrichLoop, h1]
  · simp [enrich, enrichLoop, h2]
  · simp only [runJob, hu, htx, if_true]
    exact ⟨_, rfl⟩

/-- Witness for C6 on `fallbackEnv`. -/
theorem nonretryable_fallback_witness :
    enrich (fallbackEnv.responses "AAA")
      = { profile := nullProfile, rateLimitErrs := 0, apiFetchErrs := 1,
          apiParseErrs := 0, apiCalls := 0, sleeps := [], requests := 1 } ∧
    enrich (fallbackEnv.responses "BBB")
      = { profile := nullProfile, rateLimitErrs := 0, apiFetchErrs := 0,
          apiParseErrs := 1, apiCalls := 1, sleeps := [], requests := 1 } ∧
    ∃ s : RunState, runJob fallbackEnv = RunOutcome.ok s :=
  nonretryable_fallback (fallbackEnv.responses "AAA") (fallbackEnv.responses "BBB")
    fallbackEnv [raw "AAA", raw "BBB"] rfl rfl rfl rfl

/-! ## C7: delisting frame condition -/

/-- C7: the delisting update deletes no row; rows whose symbol is
delisted keep every column except `is_active` (set false) and
`last_updated` (set to the update time); every other row is unchanged. -/
theorem delisting_frame (table : List SymbolMaster) (d : Finset String) (t : Nat) :
    (applyDelistings table d t).length = table.length ∧
    List.Forall₂ (fun r rr : SymbolMaster =>
        if r.symbol ∈ d then
          rr.symbol = r.symbol ∧ rr.exchange = r.exchange ∧ rr.name = r.name ∧
          rr.sector = r.sector ∧ rr.industry = r.industry ∧ rr.currency = r.currency ∧
          rr.country = r.country ∧ rr.ipo_date = r.ipo_date ∧
          rr.market_cap = r.market_cap ∧ rr.data_source = r.data_source ∧
          rr.is_active = false ∧ rr.last_updated = t
        else rr = r)
      table (applyDelistings table d t) := by
  unfold applyDelistings
  by_cases hd : d = ∅
  · simp only [hd, if_pos rfl]
    refine ⟨rfl, List.forall₂_same.mpr ?_⟩
    intro r _
    simp [hd]
  · rw [if_neg hd]
    refine ⟨(List.length_map _ _).symm ▸ rfl, ?_⟩
    rw [List.forall₂_map_right_iff]
    refine List.forall₂_same.mpr ?_
    intro r _
    by_cases hm : r.symbol ∈ d
    · simp [hm]
    · simp [hm]

/-! ## C8: reconciliation idempotence -/

/-- C8: reconciling a universe against exactly its own identifier set
yields no new symbols and no delistings. -/
theorem reconciler_idempotent (symbols : List RawSymbol) :
    newSymbols symbols (symbolSet symbols) = [] ∧
    delistedSymbols symbols (symbolSet symbols) = ∅ := by
  constructor
  · rw [newSymbols, List.filter_eq_nil_iff]
    intro s hs
    simp only [decide_eq_true_eq, Decidable.not_not]
    simp [symbolSet, List.mem_toFinset]
    exact ⟨s, hs, rfl⟩
  · rw [delistedSymbols, Finset.sdiff_self]

/-! ## C9: API-call counter semantics -/

/-- Counterexample to C9 as stated: a response that fails to decode still
increments the API-call counter, even though the fallback profile (not a
returned profile) is used. -/
theorem api_call_counter_counterexample :
    (enrich parseFailStream).apiCalls = 1 ∧
    (enrich parseFailStream).apiParseErrs = 1 ∧
    (enrich parseFailStream).profile = nullProfile := by
  decide

/-- C9 (amended): the API-call counter is incremented exactly when the
enricher receives a non-429 response — whether or not it decodes — and is
not incremented when the final attempt is a transport failure or a
budget-exhausting 429. -/
theorem api_call_counter (resp : Nat → ApiResponse) :
    ((enrich resp).apiCalls = 1 ↔
      ∃ d, resp ((enrich resp).requests - 1) = ApiResponse.okResponse d) ∧
    ((enrich resp).apiCalls = 0 ↔
      resp ((enrich resp).requests - 1) = ApiResponse.transportErr ∨
      resp ((enrich resp).requests - 1) = ApiResponse.rateLimited) := by
  have h := enrichLoop_apiCalls_final resp 3 0 0 []
  rw [show enrichLoop resp 0 3 0 [] = enrich resp from rfl] at h
  cases hr : resp ((enrich resp).requests - 1) <;> rw [hr] at h <;> simp [h, hr]

/-! ## C10: relisting reactivates via upsert -/

/-- C10: a persisted but inactive symbol that reappears in the fetched
universe is classified as new (the baseline holds only active
identifiers), and upserting its freshly built record replaces the old row
wholesale — same row count, every mutable column overwritten, and
`is_active` true again — instead of failing on the key conflict. -/
theorem relisting_reactivates (table0 : List SymbolMaster) (fetched : List RawSymbol)
    (sym : RawSymbol) (r : SymbolMaster) (resp : Nat → ApiResponse) (t : Nat)
    (hnodup : (table0.map (fun row => row.symbol)).Nodup)
    (hr : r ∈ table0) (hsym : r.symbol = sym.symbol) (hinactive : r.is_active = false)
    (hin : sym ∈ fetched) :
    sym.symbol ∉ activeSymbols table0 ∧
    sym ∈ newSymbols fetched (activeSymbols table0) ∧
    (upsertOne table0 (buildRecord sym (enrich resp).profile t)).length = table0.length ∧
    findRow (upsertOne table0 (buildRecord sym (enrich resp).profile t)) sym.symbol
      = some (buildRecord sym (enrich resp).profile t) ∧
    (buildRecord sym (enrich resp).profile t).is_active = true := by
  have hnotactive : sym.symbol ∉ activeSymbols table0 := by
    intro hmem
    simp only [activeSymbols, List.mem_toFinset, List.mem_map, List.mem_filter] at hmem
    obtain ⟨row, ⟨hrow, hact⟩, hrows⟩ := hmem
    have hreq : row = r := List.inj_on_of_nodup_map hnodup hrow hr (by rw [hrows, hsym])
    rw [hreq, hinactive] at hact
    cases hact
  have hany : table0.any
      (fun row => row.symbol == (buildRecord sym (enrich resp).profile t).symbol) = true :=
    List.any_eq_true.mpr ⟨r, hr, by simp [buildRecord, hsym]⟩
  refine ⟨hnotactive, ?_, ?_, ?_, rfl⟩
  · simp only [newSymbols, List.mem_filter, decide_eq_true_eq]
    exact ⟨hin, hnotactive⟩
  · rw [upsertOne, if_pos hany, List.length_map]
  · rw [upsertOne, if_pos hany]
    exact findRow_map_replace table0 _ ⟨r, hr, by simp [buildRecord, hsym]⟩

/-- Witness for C10: the inactive "GME" row is reclassified as new and
its row is overwritten active by the upsert. -/
theorem relisting_reactivates_witness :
    (raw "GME").symbol ∉ activeSymbols relistTable ∧
    raw "GME" ∈ newSymbols relistFetched (activeSymbols relistTable) ∧
    (upsertOne relistTable (buildRecord (raw "GME") (enrich relistResp).profile 9)).length
      = relistTable.length ∧
    findRow (upsertOne relistTable (buildRecord (raw "GME") (enrich relistResp).profile 9))
        (raw "GME").symbol
      = some (buildRecord (raw "GME") (enrich relistResp).profile 9) ∧
    (buildRecord (raw "GME") (enrich relistResp).profile 9).is_active = true :=
  relisting_reactivates relistTable relistFetched (raw "GME") gmeRow relistResp 9
    (by decide) (by decide) rfl rfl (by decide)

/-! ## Extra witnesses evaluating the universally quantified claims on concrete inputs -/

/-- Witness for C1 on a concrete universe and active set: "B" is new,
"D" is delisted. -/
theorem reconciler_set_semantics_witness :
    raw "B" ∈ newSymbols [raw "A", raw "B"] ({"A", "D"} : Finset String) ∧
    "D" ∈ delistedSymbols [raw "A", raw "B"] ({"A", "D"} : Finset String) :=
  ⟨((reconciler_set_semantics [raw "A", raw "B"] {"A", "D"}).1 (raw "B")).mpr
      ⟨by decide, by decide⟩,
    ((reconciler_set_semantics [raw "A", raw "B"] {"A", "D"}).2.1 "D").mpr
      ⟨by decide, by decide⟩⟩

/-- Witness for C7 on a one-row table: the delisting update preserves the
row count. -/
theorem delisting_frame_witness :
    (applyDelistings [koRow] ({"KO"} : Finset String) 4).length = [koRow].length :=
  (delisting_frame [koRow] {"KO"} 4).1

/-- Witness for C8 on a concrete universe. -/
theorem reconciler_idempotent_witness :
    newSymbols [raw "A", raw "B"] (symbolSet [raw "A", raw "B"]) = [] ∧
    delistedSymbols [raw "A", raw "B"] (symbolSet [raw "A", raw "B"]) = ∅ :=
  reconciler_idempotent [raw "A", raw "B"]

/-- Witness for C9 (amended) on a stream whose first response decodes:
the API-call counter is incremented. -/
theorem api_call_counter_witness :
    (enrich (fun _ => ApiResponse.okResponse (some recoveredProfile))).apiCalls = 1 :=
  (api_call_counter (fun _ => ApiResponse.okResponse (some recoveredProfile))).1.mpr
    ⟨some recoveredProfile, by decide⟩
